import Mathlib

/-!
# Verification of the greenlight movie repository (internal/data)

Shallow embedding of the movie data-access layer of the repository:
`MovieModel.Get`, `MovieModel.GetAll`, `MovieModel.Insert`,
`MovieModel.Update`, `MovieModel.Delete` and `ValidateMovie` from
`internal/data/movies.go`, together with the supporting `Filters`,
`Metadata` and validator helpers.

Modelling conventions:
* Go `int64`/`int32` fields are modelled as `Int`; on every path a claim
  touches, the store would raise an error rather than wrap around, so the
  unbounded model is faithful to the successful-path semantics.
* `time.Time` values are modelled as abstract `Int` timestamps.
* A Go slice that can be `nil` (`Movie.Genres`) is modelled as
  `Option (List String)`: `none` is the nil slice, `some xs` a non-nil
  slice (Go `len` of either is the length of the underlying list).
* The movies table is modelled as a `List Movie`; each SQL statement the
  repository issues is given its table-level semantics as a Lean function.
* `Get` and `Delete` are additionally parametrised by the outcome of
  their single store call, so that independence from the store can be
  stated (the spec's "without any store interaction").
-/

/-- A movie row / domain entity (struct `Movie` in `movies.go`). -/
structure Movie where
  id : Int
  createdAt : Int
  title : String
  year : Int
  runtime : Int
  genres : Option (List String)
  version : Int
deriving DecidableEq, Repr

/-- Go `len` of the possibly-nil genres slice. -/
def Movie.genresLen (m : Movie) : Nat := (m.genres.getD []).length

/-- The error taxonomy of the data layer: `ErrRecordNotFound` and
`ErrEditConflict` from `internal/data/models.go`, plus a generic store
failure (any other error bubbling up from `database/sql`), carrying an
abstract error code. -/
inductive ModelError where
  | recordNotFound
  | editConflict
  | storeFailure (code : Nat)
deriving DecidableEq, Repr

/-- Outcome of a `QueryRowContext(...).Scan(...)` call: a scanned row,
`sql.ErrNoRows`, or any other error. -/
inductive SqlRowResult (α : Type) where
  | row (value : α)
  | noRows
  | queryError (code : Nat)
deriving DecidableEq, Repr

/-- Outcome of an `ExecContext` call followed by `RowsAffected()`:
the exec itself may error, `RowsAffected` may error, or we get a count. -/
inductive ExecOutcome where
  | execError (code : Nat)
  | rowsAffectedError (code : Nat)
  | result (rowsAffected : Nat)
deriving DecidableEq, Repr

/-- `MovieModel.Get` (movies.go): ids `< 1` short-circuit to
`ErrRecordNotFound` before the store call; otherwise the single-row
fetch is issued and `sql.ErrNoRows` is mapped to `ErrRecordNotFound`,
any other error is returned as a store failure.  The store call is the
parameter `db`, so the short-circuit is literally independence from
`db`. -/
def MovieModel.Get (db : Int → SqlRowResult Movie) (id : Int) :
    Except ModelError Movie :=
  if id < 1 then .error .recordNotFound
  else
    match db id with
    | .row m => .ok m
    | .noRows => .error .recordNotFound
    | .queryError e => .error (.storeFailure e)

/-- `MovieModel.Delete` (movies.go): ids `< 1` short-circuit to
`ErrRecordNotFound`; otherwise the DELETE is executed and the affected
row count inspected: an error from exec or from `RowsAffected` is
returned as a store failure, a zero count becomes `ErrRecordNotFound`,
a positive count is success. -/
def MovieModel.Delete (db : Int → ExecOutcome) (id : Int) :
    Except ModelError Unit :=
  if id < 1 then .error .recordNotFound
  else
    match db id with
    | .execError e => .error (.storeFailure e)
    | .rowsAffectedError e => .error (.storeFailure e)
    | .result 0 => .error .recordNotFound
    | .result (_ + 1) => .ok ()

/-- Table-level semantics of the single-row fetch
`SELECT ... FROM movies WHERE id = $1`: the first row whose primary key
matches, or `sql.ErrNoRows`. -/
def tableQueryRow (table : List Movie) : Int → SqlRowResult Movie :=
  fun id =>
    match table.find? (fun row => row.id == id) with
    | some m => .row m
    | none => .noRows

/-- Table-level semantics of `DELETE FROM movies WHERE id = $1`:
the affected-row count is the number of rows whose primary key matches. -/
def tableExecDelete (table : List Movie) : Int → ExecOutcome :=
  fun id => .result (table.filter (fun row => row.id == id)).length

/-- Row transformer of the UPDATE statement's SET clause
(`SET title = $1, year = $2, runtime = $3, genres = $4,
version = version + 1 WHERE id = $5 AND version = $6`): a row matching
both the id and the caller-observed version gets the new field values
and its version incremented by one; any other row is untouched. -/
def applyUpdateRow (m : Movie) (row : Movie) : Movie :=
  if row.id = m.id ∧ row.version = m.version then
    { row with
      title := m.title, year := m.year, runtime := m.runtime,
      genres := some (m.genres.getD []), version := row.version + 1 }
  else row

/-- Table-level semantics of the UPDATE ... RETURNING version statement:
the updated table together with the returned new version (`none` when
zero rows matched, which `Scan` reports as `sql.ErrNoRows`). -/
def sqlUpdateReturning (table : List Movie) (m : Movie) :
    List Movie × Option Int :=
  (table.map (applyUpdateRow m),
   (table.find? (fun row => row.id == m.id && row.version == m.version)).map
     (fun row => row.version + 1))

/-- `MovieModel.Update` (movies.go): issues the version-conditioned
UPDATE (no id short-circuit, no retry); `sql.ErrNoRows` — zero rows
matched — becomes `ErrEditConflict`; on success the input movie's
`Version` is overwritten with the returned new version. -/
def MovieModel.Update (table : List Movie) (movie : Movie) :
    List Movie × Except ModelError Movie :=
  match sqlUpdateReturning table movie with
  | (table', none) => (table', .error .editConflict)
  | (table', some v) => (table', .ok { movie with version := v })

/-- Modelled from the spec: the movies table schema (the SQL migration
files are not under src/) assigns `id` from an auto-incrementing
sequence starting at 1, `created_at` from the clock, and gives `version`
a default of 1.  Table-level semantics of
`INSERT INTO movies (title, year, runtime, genres) VALUES ($1,$2,$3,$4)
RETURNING id, created_at, version`. -/
def sqlInsertReturning (table : List Movie) (nextID createdAt : Int)
    (m : Movie) : List Movie × (Int × Int × Int) :=
  let newRow : Movie :=
    { id := nextID, createdAt := createdAt, title := m.title,
      year := m.year, runtime := m.runtime,
      genres := some (m.genres.getD []), version := 1 }
  (table ++ [newRow], (nextID, createdAt, 1))

/-- `MovieModel.Insert` (movies.go): executes the INSERT ... RETURNING
statement and scans the store-assigned `id`, `created_at` and `version`
back into the input movie. -/
def MovieModel.Insert (table : List Movie) (nextID createdAt : Int)
    (movie : Movie) : List Movie × Movie :=
  let r := sqlInsertReturning table nextID createdAt movie
  (r.1,
   { movie with id := r.2.1, createdAt := r.2.2.1, version := r.2.2.2 })

/-- Pagination metadata (struct `Metadata`; the defining file
`internal/data/filters.go` is not among the provided sources). -/
structure Metadata where
  currentPage : Nat
  pageSize : Nat
  firstPage : Nat
  lastPage : Nat
  totalRecords : Nat
deriving DecidableEq, Repr

/-- The zero-valued `Metadata{}`. -/
def Metadata.zero : Metadata := ⟨0, 0, 0, 0, 0⟩

/-- Modelled from the spec: `calculateMetadata` (its file
`internal/data/filters.go` is not under src/; only its caller
`MovieModel.GetAll` is).  "if `totalRecords == 0`, return the all-zero
Metadata; otherwise `firstPage = 1`,
`lastPage = ceil(totalRecords / pageSize)`, with `currentPage`/`pageSize`
echoed from input."  The ceiling is computed with natural arithmetic
`(t + p - 1) / p`, never touching a division when `totalRecords = 0`. -/
def calculateMetadata (totalRecords page pageSize : Nat) : Metadata :=
  if totalRecords = 0 then Metadata.zero
  else
    { currentPage := page
      pageSize := pageSize
      firstPage := 1
      lastPage := (totalRecords + pageSize - 1) / pageSize
      totalRecords := totalRecords }

/-- The fixed sort allow-list
`{id, title, year, runtime, -id, -title, -year, -runtime}` (§6 of the
spec; the `Filters` helpers live in `internal/data/filters.go`, not
under src/). -/
def sortSafelist : List String :=
  ["id", "title", "year", "runtime", "-id", "-title", "-year", "-runtime"]

/-- Query parameters consumed by `GetAll` (struct `Filters` in
`internal/data/filters.go`, not under src/): requested page, page size
and sort specification (`-` meaning descending). -/
structure Filters where
  page : Nat
  pageSize : Nat
  sort : String
deriving DecidableEq, Repr

/-- Whether the string starts with the descending-sort marker `-`. -/
def startsWithDash (s : String) : Bool :=
  match s.data with
  | [] => false
  | c :: _ => c == '-'

/-- The string with its first character removed (strips the `-`
marker). -/
def dropFirstChar (s : String) : String :=
  ⟨s.data.drop 1⟩

/-- Modelled from the spec: `Filters.sortColumn` validates the sort
value against the fixed allow-list and yields the bare column name
(leading `-` stripped); any value outside the allow-list is rejected
before query construction (`none`), never interpolated. -/
def Filters.sortColumn (f : Filters) : Option String :=
  if sortSafelist.contains f.sort then
    some (if startsWithDash f.sort then dropFirstChar f.sort else f.sort)
  else none

/-- Modelled from the spec: `Filters.sortDirection` — a leading `-`
means descending, otherwise ascending. -/
def Filters.sortDesc (f : Filters) : Bool := startsWithDash f.sort

/-- Modelled from the spec: `Filters.limit` is the page size. -/
def Filters.limit (f : Filters) : Nat := f.pageSize

/-- Modelled from the spec: `Filters.offset` — rows skipped before the
requested page, computed from page and page size. -/
def Filters.offset (f : Filters) : Nat := (f.page - 1) * f.pageSize

/-- The WHERE clause of the `GetAll` query — full-text title match OR
empty search string, AND genre containment OR empty genre array — as a
row predicate.  The full-text match `@@` of
`to_tsvector(title) @@ plainto_tsquery($1)` is kept abstract as the
parameter `tsMatch`; `@>` is array containment: every requested genre
occurs in the genre array of the row. -/
def getAllWhere (tsMatch : String → String → Bool) (title : String)
    (genres : List String) (row : Movie) : Bool :=
  (tsMatch title row.title || title == "") &&
  (genres.all (fun g => (row.genres.getD []).contains g) || genres.isEmpty)

/-- The rows surviving the WHERE clause, in table order. -/
def getAllFiltered (tsMatch : String → String → Bool) (table : List Movie)
    (title : String) (genres : List String) : List Movie :=
  table.filter (getAllWhere tsMatch title genres)

/-- Row comparator realising `ORDER BY <col> <dir>, id ASC`: the primary
key is the allow-listed column in the requested direction, ties broken
by ascending id. -/
def movieLe (col : String) (desc : Bool) (a b : Movie) : Bool :=
  let primLt : Bool :=
    if col = "title" then decide (a.title < b.title)
    else if col = "year" then decide (a.year < b.year)
    else if col = "runtime" then decide (a.runtime < b.runtime)
    else decide (a.id < b.id)
  let primGt : Bool :=
    if col = "title" then decide (b.title < a.title)
    else if col = "year" then decide (b.year < a.year)
    else if col = "runtime" then decide (b.runtime < a.runtime)
    else decide (b.id < a.id)
  let lt := if desc then primGt else primLt
  let gt := if desc then primLt else primGt
  if lt then true else if gt then false else decide (a.id ≤ b.id)

/-- Insert a row into a list sorted by `le`. -/
def insertSorted (le : Movie → Movie → Bool) (x : Movie) :
    List Movie → List Movie
  | [] => [x]
  | y :: ys => if le x y then x :: y :: ys else y :: insertSorted le x ys

/-- Sort the rows by the comparator (the model of the ORDER BY clause). -/
def sortRows (le : Movie → Movie → Bool) (rows : List Movie) : List Movie :=
  rows.foldr (insertSorted le) []

/-- `LIMIT $3 OFFSET $4`. -/
def paginate (limit offset : Nat) (rows : List Movie) : List Movie :=
  (rows.drop offset).take limit

/-- Result of `GetAll`: either the sort value was rejected before any
query was constructed, or a page of rows with its pagination metadata. -/
inductive GetAllResult where
  | rejected (message : String)
  | ok (movies : List Movie) (metadata : Metadata)
deriving DecidableEq, Repr

/-- `MovieModel.GetAll` (movies.go): validates the sort value (rejected
outside the allow-list, before query construction), then runs the
filtered, sorted, paginated query.  The windowed `count(*) OVER()` is
scanned from each returned row, so `totalRecords` is the filtered row
count when the page is non-empty and stays at its initial `0` when the
page is empty. -/
def MovieModel.GetAll (tsMatch : String → String → Bool)
    (table : List Movie) (title : String) (genres : List String)
    (filters : Filters) : GetAllResult :=
  match filters.sortColumn with
  | none => .rejected "unsafe sort parameter"
  | some col =>
    let filtered := getAllFiltered tsMatch table title genres
    let paged :=
      paginate filters.limit filters.offset
        (sortRows (movieLe col filters.sortDesc) filtered)
    let totalRecords := if paged.isEmpty then 0 else filtered.length
    .ok paged (calculateMetadata totalRecords filters.page filters.pageSize)

/-- Modelled from the spec: the Validator
(`internal/validator/validator.go` is not under src/) "accumulates
field-keyed error messages"; errors are "accumulated (not fail-fast on
first violation)".  Modelled as the ordered list of recorded
(key, message) pairs. -/
structure Validator where
  errors : List (String × String)
deriving DecidableEq, Repr

/-- The fresh validator returned by `validator.New()`. -/
def Validator.empty : Validator := ⟨[]⟩

/-- Modelled from the spec: `Validator.Check(ok, key, message)` records
the keyed message when the condition is violated and leaves the
validator unchanged otherwise. -/
def Validator.Check (v : Validator) (ok : Bool) (key message : String) :
    Validator :=
  if ok then v else ⟨v.errors ++ [(key, message)]⟩

/-- `Validator.Valid()`: no errors were recorded. -/
def Validator.Valid (v : Validator) : Bool := v.errors.isEmpty

/-- Modelled from the spec: `validator.Unique` — no duplicate values
(set-uniqueness checked case-sensitively as given). -/
def validator.Unique : List String → Bool
  | [] => true
  | x :: xs => !(xs.contains x) && validator.Unique xs

/-- One `v.Check(...)` call site: the evaluated condition and the
field key and message passed with it. -/
structure CheckSpec where
  ok : Bool
  key : String
  message : String
deriving DecidableEq, Repr

/-- The eleven `v.Check` calls of `ValidateMovie` (movies.go), in source
order, evaluated on a movie.  `time.Now().Year()` is the parameter
`currentYear`; Go's byte length of the title is `String.utf8ByteSize`;
the Go nil check `movie.Genres != nil` is `isSome` of the optional
slice. -/
def movieChecks (currentYear : Int) (movie : Movie) : List CheckSpec :=
  [ ⟨decide (movie.title ≠ ""), "title", "must be provided"⟩,
    ⟨decide (movie.title.utf8ByteSize ≤ 500), "title",
      "must not be more than 500 bytes long"⟩,
    ⟨decide (movie.year ≠ 0), "year", "must be provided"⟩,
    ⟨decide (movie.year ≥ 1888), "year", "must be greater than 1888"⟩,
    ⟨decide (movie.year ≤ currentYear), "year", "must not be in the future"⟩,
    ⟨decide (movie.runtime ≠ 0), "runtime", "must be provided"⟩,
    ⟨decide (movie.runtime > 0), "runtime", "must be a positive integer"⟩,
    ⟨movie.genres.isSome, "genres", "must be provided"⟩,
    ⟨decide (movie.genresLen ≥ 1), "genres",
      "must contain at least 1 genre"⟩,
    ⟨decide (movie.genresLen ≤ 5), "genres",
      "must not contain more than 5 genres"⟩,
    ⟨validator.Unique (movie.genres.getD []), "genres",
      "must not contain duplicate values"⟩ ]

/-- Run a sequence of `v.Check` calls left to right. -/
def runChecks (v : Validator) (cs : List CheckSpec) : Validator :=
  cs.foldl (fun v c => v.Check c.ok c.key c.message) v

/-- `ValidateMovie` (movies.go): the eleven checks applied in source
order to the validator. -/
def ValidateMovie (currentYear : Int) (v : Validator) (movie : Movie) :
    Validator :=
  runChecks v (movieChecks currentYear movie)

/-! ## Helper lemmas -/

/-- When no row matches both the id and the observed version, the SET
clause touches nothing: the mapped table is the table itself. -/
theorem map_applyUpdateRow_id (table : List Movie) (movie : Movie)
    (h : ∀ r ∈ table, ¬(r.id = movie.id ∧ r.version = movie.version)) :
    table.map (applyUpdateRow movie) = table := by
  induction table with
  | nil => rfl
  | cons x xs ih =>
    have hx : applyUpdateRow movie x = x := by
      unfold applyUpdateRow
      rw [if_neg (h x (by simp))]
    simp only [List.map_cons, hx,
      ih (fun r hr => h r (List.mem_cons_of_mem x hr))]

/-- An `Update` matching zero rows returns `ErrEditConflict` and leaves
the table untouched. -/
theorem update_zero_rows_matched (table : List Movie) (movie : Movie)
    (h : ∀ r ∈ table, ¬(r.id = movie.id ∧ r.version = movie.version)) :
    MovieModel.Update table movie = (table, .error .editConflict) := by
  have hfind : table.find?
      (fun row => row.id == movie.id && row.version == movie.version)
      = none := by
    rw [List.find?_eq_none]
    intro r hr
    simpa using h r hr
  simp [MovieModel.Update, sqlUpdateReturning, hfind,
    map_applyUpdateRow_id table movie h]

/-! ## Claims -/

/-- C1: For every Update call where zero rows match the id-and-version
condition (row deleted or version changed), Update returns an
EditConflict-class error, never NotFound and never a silent retry, and
the stored rows (in particular their versions) are left unchanged. -/
theorem update_conflict_on_zero_match (table : List Movie) (movie : Movie)
    (h : ∀ r ∈ table, ¬(r.id = movie.id ∧ r.version = movie.version)) :
    MovieModel.Update table movie = (table, .error .editConflict) ∧
    (MovieModel.Update table movie).2 ≠ .error .recordNotFound ∧
    (MovieModel.Update table movie).1 = table := by
  have hu := update_zero_rows_matched table movie h
  refine ⟨hu, ?_, by rw [hu]⟩
  rw [hu]
  simp

/-- Witness for C1: a table holding the movie at version 2 while the
caller still observes version 1. -/
theorem update_conflict_on_zero_match_witness :
    (∀ r ∈ [(⟨1, 0, "a", 2000, 100, some ["x"], 2⟩ : Movie)],
      ¬(r.id = (⟨1, 0, "b", 2001, 101, some ["y"], 1⟩ : Movie).id ∧
        r.version = (⟨1, 0, "b", 2001, 101, some ["y"], 1⟩ : Movie).version)) ∧
    MovieModel.Update [(⟨1, 0, "a", 2000, 100, some ["x"], 2⟩ : Movie)]
        ⟨1, 0, "b", 2001, 101, some ["y"], 1⟩ =
      ([(⟨1, 0, "a", 2000, 100, some ["x"], 2⟩ : Movie)],
        .error .editConflict) :=
  ⟨by decide,
   (update_conflict_on_zero_match
      [(⟨1, 0, "a", 2000, 100, some ["x"], 2⟩ : Movie)]
      ⟨1, 0, "b", 2001, 101, some ["y"], 1⟩ (by decide)).1⟩

/-- C2: For every successful Update call, the stored version is
incremented by exactly 1 — the UPDATE conditions on both id and the
caller-observed version and sets the new field values row-wise in one
statement — and the input movie comes back with its version field set
to the new value. -/
theorem update_success_increments_version (table : List Movie)
    (movie r : Movie)
    (h : table.find?
      (fun row => row.id == movie.id && row.version == movie.version)
      = some r) :
    (MovieModel.Update table movie).2 =
      .ok { movie with version := movie.version + 1 } ∧
    (MovieModel.Update table movie).1 = table.map (applyUpdateRow movie) ∧
    (∀ row : Movie, row.id = movie.id ∧ row.version = movie.version →
      (applyUpdateRow movie row).version = row.version + 1 ∧
      (applyUpdateRow movie row).title = movie.title ∧
      (applyUpdateRow movie row).year = movie.year ∧
      (applyUpdateRow movie row).runtime = movie.runtime ∧
      (applyUpdateRow movie row).id = row.id) ∧
    (∀ row : Movie, ¬(row.id = movie.id ∧ row.version = movie.version) →
      applyUpdateRow movie row = row) := by
  have hp := List.find?_some h
  simp only [Bool.and_eq_true, beq_iff_eq] at hp
  refine ⟨?_, ?_, ?_, ?_⟩
  · simp [MovieModel.Update, sqlUpdateReturning, h, hp.2]
  · simp [MovieModel.Update, sqlUpdateReturning, h]
  · intro row hrow
    simp [applyUpdateRow, if_pos hrow]
  · intro row hrow
    simp [applyUpdateRow, if_neg hrow]

/-- Witness for C2: a one-row table at version 3, updated by a caller
that observed version 3; the new version is 4. -/
theorem update_success_increments_version_witness :
    ([(⟨7, 0, "old", 1999, 90, some ["a"], 3⟩ : Movie)].find?
      (fun row => row.id == (7 : Int) && row.version == (3 : Int))
      = some ⟨7, 0, "old", 1999, 90, some ["a"], 3⟩) ∧
    (MovieModel.Update [(⟨7, 0, "old", 1999, 90, some ["a"], 3⟩ : Movie)]
        ⟨7, 0, "new", 2001, 95, some ["b"], 3⟩).2 =
      .ok ⟨7, 0, "new", 2001, 95, some ["b"], 4⟩ :=
  ⟨by decide,
   (update_success_increments_version
      [(⟨7, 0, "old", 1999, 90, some ["a"], 3⟩ : Movie)]
      ⟨7, 0, "new", 2001, 95, some ["b"], 3⟩
      ⟨7, 0, "old", 1999, 90, some ["a"], 3⟩ (by decide)).1⟩

/-- C3: For every id < 1, Get and Delete return the NotFound-class
error immediately and independently of the store: the store-call
outcome functions `db` and `ex` are arbitrary (in particular they may
be stubs that always fail), yet the result is `ErrRecordNotFound`. -/
theorem get_delete_short_circuit_below_one
    (db : Int → SqlRowResult Movie) (ex : Int → ExecOutcome) (id : Int)
    (h : id < 1) :
    MovieModel.Get db id = .error .recordNotFound ∧
    MovieModel.Delete ex id = .error .recordNotFound := by
  exact ⟨by simp [MovieModel.Get, if_pos h],
         by simp [MovieModel.Delete, if_pos h]⟩

/-- Witness for C3: id 0 against a store stub that errors on every
call; the stub is never consulted. -/
theorem get_delete_short_circuit_below_one_witness :
    ((0 : Int) < 1) ∧
    MovieModel.Get (fun _ => .queryError 99) 0 = .error .recordNotFound ∧
    MovieModel.Delete (fun _ => .execError 99) 0 = .error .recordNotFound :=
  ⟨by decide,
   (get_delete_short_circuit_below_one (fun _ => .queryError 99)
      (fun _ => .execError 99) 0 (by decide)).1,
   (get_delete_short_circuit_below_one (fun _ => .queryError 99)
      (fun _ => .execError 99) 0 (by decide)).2⟩

/-- C4: For every id ≥ 1 matching no stored row, Get maps the
no-matching-row store response to NotFound, and Delete maps the zero
affected-row count to NotFound — not success, not a generic error —
and NotFound is a different error than any generic store failure. -/
theorem get_delete_notfound_on_missing_row (table : List Movie)
    (id : Int) (h1 : 1 ≤ id) (h2 : ∀ r ∈ table, r.id ≠ id) :
    MovieModel.Get (tableQueryRow table) id = .error .recordNotFound ∧
    MovieModel.Delete (tableExecDelete table) id =
      .error .recordNotFound ∧
    (∀ e, ModelError.recordNotFound ≠ ModelError.storeFailure e) := by
  have hlt : ¬ id < 1 := by omega
  have hfind : table.find? (fun row => row.id == id) = none := by
    rw [List.find?_eq_none]
    intro r hr
    simpa using h2 r hr
  have hfilter : table.filter (fun row => row.id == id) = [] := by
    rw [List.filter_eq_nil_iff]
    intro r hr
    simpa using h2 r hr
  refine ⟨?_, ?_, ?_⟩
  · simp [MovieModel.Get, if_neg hlt, tableQueryRow, hfind]
  · simp [MovieModel.Delete, if_neg hlt, tableExecDelete, hfilter]
  · intro e hcontra
    cases hcontra

/-- Witness for C4: id 1 against the empty table. -/
theorem get_delete_notfound_on_missing_row_witness :
    ((1 : Int) ≤ 1) ∧
    MovieModel.Get (tableQueryRow []) 1 = .error .recordNotFound ∧
    MovieModel.Delete (tableExecDelete []) 1 = .error .recordNotFound :=
  ⟨by decide,
   (get_delete_notfound_on_missing_row [] 1 (by decide) (by decide)).1,
   (get_delete_notfound_on_missing_row [] 1 (by decide) (by decide)).2.1⟩

/-- C10: Update has no id < 1 fast path: on a table whose ids are all
≥ 1 (the id sequence starts at 1), an Update carrying id < 1 still runs
the version-conditioned statement and comes back through the
zero-rows-matched path as EditConflict, while Get and Delete answer the
very same id with NotFound from their short-circuit. -/
theorem update_no_id_fast_path (table : List Movie) (movie : Movie)
    (hid : movie.id < 1) (hids : ∀ r ∈ table, 1 ≤ r.id) :
    MovieModel.Update table movie = (table, .error .editConflict) ∧
    (MovieModel.Update table movie).2 ≠ .error .recordNotFound ∧
    MovieModel.Get (tableQueryRow table) movie.id =
      .error .recordNotFound ∧
    MovieModel.Delete (tableExecDelete table) movie.id =
      .error .recordNotFound := by
  have hnm : ∀ r ∈ table, ¬(r.id = movie.id ∧ r.version = movie.version) := by
    intro r hr hmatch
    have := hids r hr
    omega
  have hu := update_zero_rows_matched table movie hnm
  refine ⟨hu, ?_, ?_, ?_⟩
  · rw [hu]; simp
  · simp [MovieModel.Get, if_pos hid]
  · simp [MovieModel.Delete, if_pos hid]

/-- Witness for C10: id 0 against a one-row table with id 1. -/
theorem update_no_id_fast_path_witness :
    ((⟨0, 0, "x", 2000, 100, some ["a"], 1⟩ : Movie).id < 1) ∧
    MovieModel.Update [(⟨1, 0, "y", 2000, 100, some ["a"], 1⟩ : Movie)]
        ⟨0, 0, "x", 2000, 100, some ["a"], 1⟩ =
      ([(⟨1, 0, "y", 2000, 100, some ["a"], 1⟩ : Movie)],
        .error .editConflict) :=
  ⟨by decide,
   (update_no_id_fast_path [(⟨1, 0, "y", 2000, 100, some ["a"], 1⟩ : Movie)]
      ⟨0, 0, "x", 2000, 100, some ["a"], 1⟩ (by decide) (by decide)).1⟩

/-- C5: the pure metadata computation returns the all-zero Metadata
when totalRecords is 0, regardless of page and pageSize; otherwise it
echoes currentPage and pageSize, sets firstPage to 1 and lastPage to
the ceiling of totalRecords / pageSize — the two inequalities pin
lastPage to exactly that ceiling (rounded up, never truncated), and no
division by zero can occur (pageSize is positive on this branch); in
particular totalRecords 13 with pageSize 5 yields lastPage 3 for every
page. -/
theorem calculateMetadata_spec (t page p : Nat) :
    (t = 0 → calculateMetadata t page p = Metadata.zero) ∧
    (t ≠ 0 → 0 < p →
      (calculateMetadata t page p).currentPage = page ∧
      (calculateMetadata t page p).pageSize = p ∧
      (calculateMetadata t page p).firstPage = 1 ∧
      (calculateMetadata t page p).totalRecords = t ∧
      t ≤ p * (calculateMetadata t page p).lastPage ∧
      p * (calculateMetadata t page p).lastPage < t + p) ∧
    (calculateMetadata 13 page 5).lastPage = 3 := by
  refine ⟨fun h => by simp [calculateMetadata, h], fun ht hp => ?_, rfl⟩
  have hdm := Nat.div_add_mod (t + p - 1) p
  have hr : (t + p - 1) % p < p := Nat.mod_lt _ hp
  have h1 : 1 ≤ t := Nat.one_le_iff_ne_zero.mpr ht
  have key : ∀ m r : Nat, m + r = t + p - 1 → r < p →
      t ≤ m ∧ m < t + p := by
    intro m r hmr hrp
    omega
  have k2 := key (p * ((t + p - 1) / p)) ((t + p - 1) % p) hdm hr
  unfold calculateMetadata
  rw [if_neg ht]
  exact ⟨rfl, rfl, rfl, rfl, k2.1, k2.2⟩

/-- Witness for C5: totalRecords 13, page 2, pageSize 5. -/
theorem calculateMetadata_spec_witness :
    ((13 : Nat) ≠ 0) ∧ ((0 : Nat) < 5) ∧
    (calculateMetadata 13 2 5).lastPage = 3 ∧
    13 ≤ 5 * (calculateMetadata 13 2 5).lastPage ∧
    calculateMetadata 0 7 9 = Metadata.zero :=
  ⟨by decide, by decide,
   (calculateMetadata_spec 13 2 5).2.2,
   ((calculateMetadata_spec 13 2 5).2.1 (by decide) (by decide)).2.2.2.2.1,
   (calculateMetadata_spec 0 7 9).1 rfl⟩

/-- C6: with an empty search string and an empty genre filter the WHERE
predicate holds of every row whatever the full-text matcher does, the
filter stage passes the whole table through, and GetAll returns all
rows subject only to sorting and paging: the empty string and the empty
array are pass-through sentinels, not match-nothing filters. -/
theorem getAll_empty_filters_pass_through
    (tsMatch : String → String → Bool) (table : List Movie)
    (f : Filters) (col : String) (hcol : f.sortColumn = some col) :
    (∀ row, getAllWhere tsMatch "" [] row = true) ∧
    getAllFiltered tsMatch table "" [] = table ∧
    MovieModel.GetAll tsMatch table "" [] f =
      .ok (paginate f.limit f.offset
            (sortRows (movieLe col f.sortDesc) table))
        (calculateMetadata
          (if (paginate f.limit f.offset
                (sortRows (movieLe col f.sortDesc) table)).isEmpty
           then 0 else table.length) f.page f.pageSize) := by
  have hwhere : ∀ row, getAllWhere tsMatch "" [] row = true := by
    intro row
    simp [getAllWhere]
  have hfilter : getAllFiltered tsMatch table "" [] = table := by
    rw [getAllFiltered, List.filter_eq_self]
    intro r _
    exact hwhere r
  refine ⟨hwhere, hfilter, ?_⟩
  simp only [MovieModel.GetAll, hcol, hfilter]

/-- Witness for C6: a two-row table, a matcher that matches nothing,
sort by id, page 1 of size 20. -/
theorem getAll_empty_filters_pass_through_witness :
    ((Filters.mk 1 20 "id").sortColumn = some "id") ∧
    getAllFiltered (fun _ _ => false)
      [(⟨1, 0, "a", 2000, 100, some ["x"], 1⟩ : Movie),
       ⟨2, 0, "b", 2001, 101, some ["y"], 1⟩] "" [] =
      [(⟨1, 0, "a", 2000, 100, some ["x"], 1⟩ : Movie),
       ⟨2, 0, "b", 2001, 101, some ["y"], 1⟩] :=
  ⟨by decide,
   (getAll_empty_filters_pass_through (fun _ _ => false)
      [(⟨1, 0, "a", 2000, 100, some ["x"], 1⟩ : Movie),
       ⟨2, 0, "b", 2001, 101, some ["y"], 1⟩]
      (Filters.mk 1 20 "id") "id" (by decide)).2.1⟩

/-- C7: every sort value outside the fixed allow-list is rejected
before query construction — sortColumn yields no column, and GetAll
answers with the rejection for every store content, matcher, search
string and genre filter, so the caller-controlled value is never
interpolated into a query. -/
theorem sort_allowlist_rejection (f : Filters)
    (h : ¬ f.sort ∈ sortSafelist) :
    f.sortColumn = none ∧
    (∀ tsMatch table title genres,
      MovieModel.GetAll tsMatch table title genres f =
        .rejected "unsafe sort parameter") := by
  constructor
  · simp [Filters.sortColumn, h]
  · intro tsMatch table title genres
    simp [MovieModel.GetAll, Filters.sortColumn, h]

/-- Witness for C7: an injection-shaped sort value. -/
theorem sort_allowlist_rejection_witness :
    (¬ "title; DROP TABLE movies--" ∈ sortSafelist) ∧
    (Filters.mk 1 20 "title; DROP TABLE movies--").sortColumn = none ∧
    MovieModel.GetAll (fun _ _ => true) [] "" []
        (Filters.mk 1 20 "title; DROP TABLE movies--") =
      .rejected "unsafe sort parameter" :=
  ⟨by decide,
   (sort_allowlist_rejection (Filters.mk 1 20 "title; DROP TABLE movies--")
      (by decide)).1,
   (sort_allowlist_rejection (Filters.mk 1 20 "title; DROP TABLE movies--")
      (by decide)).2 (fun _ _ => true) [] "" []⟩

/-- C8: every successful Insert hands the store-assigned id, createdAt
and initial version back in the input movie, the initial version is
exactly 1, and (the id sequence starting at 1) the assigned id is ≥ 1;
the stored new row carries the same system-assigned values. -/
theorem insert_returns_initial_version (table : List Movie)
    (nextID createdAt : Int) (movie : Movie) (h : 1 ≤ nextID) :
    (MovieModel.Insert table nextID createdAt movie).2 =
      { movie with id := nextID, createdAt := createdAt, version := 1 } ∧
    (MovieModel.Insert table nextID createdAt movie).2.version = 1 ∧
    1 ≤ (MovieModel.Insert table nextID createdAt movie).2.id ∧
    (MovieModel.Insert table nextID createdAt movie).1 =
      table ++
        [{ id := nextID, createdAt := createdAt, title := movie.title,
           year := movie.year, runtime := movie.runtime,
           genres := some (movie.genres.getD []), version := 1 }] := by
  refine ⟨rfl, rfl, ?_, rfl⟩
  simpa [MovieModel.Insert, sqlInsertReturning] using h

/-- Witness for C8: inserting the Dune movie of the spec into the empty
table with next id 1. -/
theorem insert_returns_initial_version_witness :
    ((1 : Int) ≤ 1) ∧
    (MovieModel.Insert [] 1 42
        ⟨0, 0, "Dune", 2021, 155, some ["scifi", "drama"], 0⟩).2 =
      ⟨1, 42, "Dune", 2021, 155, some ["scifi", "drama"], 1⟩ ∧
    (MovieModel.Insert [] 1 42
        ⟨0, 0, "Dune", 2021, 155, some ["scifi", "drama"], 0⟩).2.version
      = 1 :=
  ⟨by decide,
   (insert_returns_initial_version [] 1 42
      ⟨0, 0, "Dune", 2021, 155, some ["scifi", "drama"], 0⟩ (by decide)).1,
   (insert_returns_initial_version [] 1 42
      ⟨0, 0, "Dune", 2021, 155, some ["scifi", "drama"], 0⟩
      (by decide)).2.1⟩

/-- One `Check` call records exactly the violated rule: a keyed message
is in the result iff it was already recorded or this check failed with
that key and message. -/
theorem check_errors_mem (v : Validator) (ok : Bool) (key message k m : String) :
    ((k, m) ∈ (v.Check ok key message).errors ↔
      (k, m) ∈ v.errors ∨ (ok = false ∧ k = key ∧ m = message)) := by
  cases ok <;> simp [Validator.Check, Prod.ext_iff]

/-- A sequence of `Check` calls accumulates exactly the violated rules
(no stopping at the first violation). -/
theorem runChecks_errors_mem (cs : List CheckSpec) (v : Validator)
    (k m : String) :
    ((k, m) ∈ (runChecks v cs).errors ↔
      (k, m) ∈ v.errors ∨
        ∃ c ∈ cs, c.ok = false ∧ k = c.key ∧ m = c.message) := by
  induction cs generalizing v with
  | nil => simp [runChecks]
  | cons c cs ih =>
    have hstep : runChecks v (c :: cs) =
        runChecks (v.Check c.ok c.key c.message) cs := rfl
    rw [hstep, ih, check_errors_mem]
    constructor
    · rintro ((hv | hc) | ⟨c', hc', hok, hk, hm⟩)
      · exact Or.inl hv
      · exact Or.inr ⟨c, List.mem_cons_self c cs, hc.1, hc.2.1, hc.2.2⟩
      · exact Or.inr ⟨c', List.mem_cons_of_mem c hc', hok, hk, hm⟩
    · rintro (hv | ⟨c', hc', hok, hk, hm⟩)
      · exact Or.inl (Or.inl hv)
      · rcases List.mem_cons.mp hc' with hceq | hmem
        · exact Or.inl (Or.inr (by rw [hceq] at hok hk hm; exact ⟨hok, hk, hm⟩))
        · exact Or.inr ⟨c', hmem, hok, hk, hm⟩

/-- C9: validation evaluates all eleven field rules and accumulates
every violated rule keyed by field name: a keyed message is recorded
iff the corresponding rule is violated, and in particular every
violated rule of a movie contributes its entry — nothing stops at the
first violation. -/
theorem validateMovie_accumulates (currentYear : Int) (movie : Movie) :
    (∀ k m, ((k, m) ∈ (ValidateMovie currentYear Validator.empty movie).errors ↔
      ∃ c ∈ movieChecks currentYear movie,
        c.ok = false ∧ k = c.key ∧ m = c.message)) ∧
    (∀ c ∈ movieChecks currentYear movie, c.ok = false →
      (c.key, c.message) ∈
        (ValidateMovie currentYear Validator.empty movie).errors) := by
  have hmain : ∀ k m,
      ((k, m) ∈ (ValidateMovie currentYear Validator.empty movie).errors ↔
        ∃ c ∈ movieChecks currentYear movie,
          c.ok = false ∧ k = c.key ∧ m = c.message) := by
    intro k m
    rw [ValidateMovie, runChecks_errors_mem]
    simp [Validator.empty]
  refine ⟨hmain, ?_⟩
  intro c hc hok
  exact (hmain c.key c.message).mpr ⟨c, hc, hok, rfl, rfl⟩

/-- Witness for C9: against current year 2025, a movie with an empty
title, a future year and six genres with a duplicate accumulates the
entries of all these violated rules at once (and an all-empty genre
list yields its keyed entry too). -/
theorem validateMovie_accumulates_witness :
    ((⟨false, "genres", "must not contain duplicate values"⟩ : CheckSpec) ∈
        movieChecks 2025
          ⟨1, 0, "", 2026, 100, some ["a", "a", "b", "c", "d", "e"], 1⟩) ∧
    (("genres", "must not contain duplicate values") ∈
      (ValidateMovie 2025 Validator.empty
        ⟨1, 0, "", 2026, 100, some ["a", "a", "b", "c", "d", "e"], 1⟩).errors) ∧
    (("genres", "must not contain more than 5 genres") ∈
      (ValidateMovie 2025 Validator.empty
        ⟨1, 0, "", 2026, 100, some ["a", "a", "b", "c", "d", "e"], 1⟩).errors) ∧
    (("year", "must not be in the future") ∈
      (ValidateMovie 2025 Validator.empty
        ⟨1, 0, "", 2026, 100, some ["a", "a", "b", "c", "d", "e"], 1⟩).errors) ∧
    (("title", "must be provided") ∈
      (ValidateMovie 2025 Validator.empty
        ⟨1, 0, "", 2026, 100, some ["a", "a", "b", "c", "d", "e"], 1⟩).errors) ∧
    (("genres", "must contain at least 1 genre") ∈
      (ValidateMovie 2025 Validator.empty
        ⟨1, 0, "T", 2020, 100, some [], 1⟩).errors) :=
  ⟨by decide,
   (validateMovie_accumulates 2025
      ⟨1, 0, "", 2026, 100, some ["a", "a", "b", "c", "d", "e"], 1⟩).2
      ⟨false, "genres", "must not contain duplicate values"⟩ (by decide) rfl,
   (validateMovie_accumulates 2025
      ⟨1, 0, "", 2026, 100, some ["a", "a", "b", "c", "d", "e"], 1⟩).2
      ⟨false, "genres", "must not contain more than 5 genres"⟩ (by decide) rfl,
   (validateMovie_accumulates 2025
      ⟨1, 0, "", 2026, 100, some ["a", "a", "b", "c", "d", "e"], 1⟩).2
      ⟨false, "year", "must not be in the future"⟩ (by decide) rfl,
   (validateMovie_accumulates 2025
      ⟨1, 0, "", 2026, 100, some ["a", "a", "b", "c", "d", "e"], 1⟩).2
      ⟨false, "title", "must be provided"⟩ (by decide) rfl,
   (validateMovie_accumulates 2025
      ⟨1, 0, "T", 2020, 100, some [], 1⟩).2
      ⟨false, "genres", "must contain at least 1 genre"⟩ (by decide) rfl⟩
